import Mathlib

/-!
Shallow embedding of `src/Doc2Vec_Modeler.py`.

The module defines a `Doc2VecModeler` class (a wrapper around a trained
gensim Doc2Vec model together with its evaluation statistics) and a
`DocVecModelEvaluator` class (a registry aggregating per-model statistics).

Modelling conventions:
* Python floats are modelled as rationals `ℚ` (exact real arithmetic); the
  real-valued vector geometry of scipy's `cosine` and `euclidean` is
  modelled separately over `ℝ`.
* Attributes that a method may set later are `Option`-valued; reading an
  attribute that was never assigned raises `AttributeError`, modelled by
  `Except PyError`.
* External library calls (gensim training / inference / `most_similar`,
  scipy's `cosine`, `euclidean` and `ttest_ind`) are oracle parameters:
  the file under verification treats them as opaque capabilities.
* `pandas` dataframes of pairings are lists of rows; the `is_pair` column
  is boolean ground truth (spec section 3), and Python's `== 1` / `== 0`
  comparisons on booleans select `true` / `false` rows respectively.
* A bare name that is not defined at module level raises `NameError` when
  evaluated (relevant: `collections` at line 64, `train_pairings_df` and
  `test_pairings_df` at lines 201-202, `update_stats` at line 211).
-/

/-- Python runtime errors that the module can raise. -/
inductive PyError where
  | nameError (n : String)
  | attributeError (a : String)
  | valueError
deriving DecidableEq

/-- Reading `self.attr`: `AttributeError` when the attribute was never set. -/
def getattrE {α : Type} (x : Option α) (a : String) : Except PyError α :=
  match x with
  | some v => Except.ok v
  | none => Except.error (PyError.attributeError a)

/-- Resolving a bare module-level name that the module never defines
(`train_pairings_df`, `test_pairings_df` and `update_stats` exist only as
locals of `main` / methods, `collections` is never imported): `NameError`. -/
def moduleGlobal (α : Type) (n : String) : Except PyError α :=
  Except.error (PyError.nameError n)

/-- A tagged training document: a token sequence (the unique integer tag is
its position in the corpus). -/
structure TaggedDoc where
  words : List String

/-- Oracle for a trained gensim Doc2Vec model (the training algorithm is an
external capability, out of scope per spec section 1).
`inferVector doc epochs` models `model.infer_vector(doc, epochs=...)`;
`mostSimilar v topn` models `model.docvecs.most_similar([v], topn=...)`,
returning document tags paired with cosine similarity, most similar first;
`docCount` models `len(model.docvecs)`. -/
structure GensimOracle where
  inferVector : List String → ℕ → List ℚ
  mostSimilar : List ℚ → ℕ → List (ℕ × ℚ)
  docCount : ℕ

/-- Oracle for `gensim.models.doc2vec.Doc2Vec(...)` + `build_vocab` +
`train`: from the corpus and hyperparameters to a trained model. -/
def Trainer : Type :=
  List TaggedDoc → ℕ → ℕ → ℕ → ℕ → GensimOracle

/-- Oracle for scipy's `cosine` (distance) and `euclidean` on inferred
vectors (floating point routines, modelled abstractly here; their exact
real-valued mathematics is `scipyCosine` / `scipyEuclidean` below). -/
structure ScipySims where
  cosineDist : List ℚ → List ℚ → ℚ
  euclDist : List ℚ → List ℚ → ℚ

/-- Oracle for `scipy.stats.ttest_ind`: two samples to (statistic, p-value).
A pure numerical routine, hence a function. -/
def TTest : Type :=
  List ℚ → List ℚ → ℚ × ℚ

/-- One row of a pairings dataframe: preprocessed reference text,
preprocessed annotation ("tate") text, and the ground-truth `is_pair`
flag (boolean; Python's `== 1` selects `true`, `== 0` selects `false`). -/
structure PairRow where
  ref_pp_text : List String
  tate_pp_text : List String
  is_pair : Bool

/-- A row of the augmented dataframe `calc_pairings_df` built by
`calculate_pair_sims_array`: the original columns plus inferred vectors
and the per-pair cosine similarity / euclidean distance columns. -/
structure CalcRow extends PairRow where
  ref_vecs : List ℚ
  tate_vecs : List ℚ
  pair_cs : ℚ
  pair_ed : ℚ

/-- Mean of a pandas series; the mean of an empty series is NaN,
modelled as `none`. -/
def seriesMean (l : List ℚ) : Option ℚ :=
  if l.length = 0 then none else some (l.sum / (l.length : ℚ))

/-- Max of a pandas series (`none` = NaN for the empty series). -/
def seriesMax (l : List ℚ) : Option ℚ :=
  l.max?

/-- Min of a pandas series (`none` = NaN for the empty series). -/
def seriesMin (l : List ℚ) : Option ℚ :=
  l.min?

/-- The summary-statistics dict built for one metric in
`calculate_pair_sims_array` (keys `avg_tru`, `avg_false`, `max_tru`,
`max_false`, `min_tru`, `min_false`). -/
structure GroupStats where
  avg_tru : Option ℚ
  avg_false : Option ℚ
  max_tru : Option ℚ
  max_false : Option ℚ
  min_tru : Option ℚ
  min_false : Option ℚ

/-- Builds the stats dict from the true-group and false-group series. -/
def groupStats (tru fls : List ℚ) : GroupStats :=
  { avg_tru := seriesMean tru
    avg_false := seriesMean fls
    max_tru := seriesMax tru
    max_false := seriesMax fls
    min_tru := seriesMin tru
    min_false := seriesMin fls }

/-- The state of a `Doc2VecModeler` instance: the `__init__` attributes
plus every attribute that later methods may set (absent = never assigned). -/
structure Doc2VecModeler where
  model_name : String
  train_corpus : List TaggedDoc
  n_training_docs : ℕ
  training_corpus_name : String
  vector_size : ℕ
  dm : ℕ
  min_count : ℕ
  epochs : ℕ
  inferred_docs : List (List String)
  inferred_vecs : List (List ℚ)
  model : Option GensimOracle
  rank_counter : Option (List ℕ)
  n_self_recognized : Option ℕ
  self_recog_rate : Option ℚ
  greater_than_95 : Option Bool
  tr_pairings_df : Option (List CalcRow)
  train_true_cs : Option (List ℚ)
  train_false_cs : Option (List ℚ)
  train_true_ed : Option (List ℚ)
  train_false_ed : Option (List ℚ)
  tr_cs_pairings_stats : Option GroupStats
  tr_ed_pairings_stats : Option GroupStats
  tst_pairings_df : Option (List CalcRow)
  test_true_cs : Option (List ℚ)
  test_false_cs : Option (List ℚ)
  test_true_ed : Option (List ℚ)
  test_false_ed : Option (List ℚ)
  tst_cs_pairings_stats : Option GroupStats
  tst_ed_pairings_stats : Option GroupStats
  cs_train_stat : Option ℚ
  cs_train_p_val : Option ℚ
  cs_is_train_significant : Option Bool
  ed_train_stat : Option ℚ
  ed_train_p_val : Option ℚ
  ed_is_train_significant : Option Bool
  cs_test_stat : Option ℚ
  cs_test_p_val : Option ℚ
  cs_is_test_significant : Option Bool
  ed_test_stat : Option ℚ
  ed_test_p_val : Option ℚ
  ed_is_test_significant : Option Bool

namespace Doc2VecModeler

/-- `Doc2VecModeler.__init__` (lines 18-28): stores the configuration,
`n_training_docs = len(train_corpus)`, an empty inferred-vector cache;
no other attribute exists yet. -/
def init (model_name : String) (train_corpus : List TaggedDoc)
    (training_corpus_name : String) (vector_size : ℕ := 100) (dm : ℕ := 1)
    (min_count : ℕ := 2) (epochs : ℕ := 100) : Doc2VecModeler :=
  { model_name := model_name
    train_corpus := train_corpus
    n_training_docs := train_corpus.length
    training_corpus_name := training_corpus_name
    vector_size := vector_size
    dm := dm
    min_count := min_count
    epochs := epochs
    inferred_docs := []
    inferred_vecs := []
    model := none
    rank_counter := none
    n_self_recognized := none
    self_recog_rate := none
    greater_than_95 := none
    tr_pairings_df := none
    train_true_cs := none
    train_false_cs := none
    train_true_ed := none
    train_false_ed := none
    tr_cs_pairings_stats := none
    tr_ed_pairings_stats := none
    tst_pairings_df := none
    test_true_cs := none
    test_false_cs := none
    test_true_ed := none
    test_false_ed := none
    tst_cs_pairings_stats := none
    tst_ed_pairings_stats := none
    cs_train_stat := none
    cs_train_p_val := none
    cs_is_train_significant := none
    ed_train_stat := none
    ed_train_p_val := none
    ed_is_train_significant := none
    cs_test_stat := none
    cs_test_p_val := none
    cs_is_test_significant := none
    ed_test_stat := none
    ed_test_p_val := none
    ed_is_test_significant := none }

/-- `fit_model` (lines 30-44): builds and trains the gensim model (external
capability `trainer`) from the stored corpus and hyperparameters, and
stores it in `self.model`. -/
def fit_model (trainer : Trainer) (st : Doc2VecModeler) : Doc2VecModeler :=
  { st with
    model := some (trainer st.train_corpus st.vector_size st.dm st.min_count st.epochs) }

/-- One iteration of the loop at lines 55-63: infer the document's vector,
rank all documents by similarity to it, and extract the position of the
document's own tag (`.index` raises `ValueError` when the tag is absent). -/
def docRank (m : GensimOracle) (epochs : ℕ) (doc_id : ℕ) (doc : List String) :
    Except PyError ℕ :=
  let inferred_vector := m.inferVector doc epochs
  let sims := m.mostSimilar inferred_vector m.docCount
  match (sims.map Prod.fst).findIdx? (fun d => d == doc_id) with
  | some rank => Except.ok rank
  | none => Except.error PyError.valueError

/-- The `ranks` list accumulated by the loop at lines 53-63, one rank per
training document (document ids `0, ..., n-1` in corpus order). -/
def selfRanks (m : GensimOracle) (corpus : List TaggedDoc) (epochs : ℕ) :
    Except PyError (List ℕ) :=
  corpus.enum.mapM (fun p => docRank m epochs p.1 p.2.words)

/-- `calc_self_recognition_ability` (lines 46-68). Line 52 reads
`self.model` (AttributeError when `fit_model` never ran); the loop builds
`ranks`; then line 64 evaluates `collections.Counter(ranks)` — but the
module never imports `collections`, so the name raises `NameError` and
none of `rank_counter`, `n_self_recognized`, `self_recog_rate`,
`greater_than_95` is ever assigned. -/
def calc_self_recognition_ability (st : Doc2VecModeler) :
    Except PyError Doc2VecModeler :=
  match st.model with
  | none => Except.error (PyError.attributeError "model")
  | some m =>
    match selfRanks m st.train_corpus st.epochs with
    | Except.error e => Except.error e
    | Except.ok _ranks => Except.error (PyError.nameError "collections")

end Doc2VecModeler

/-- The rank-frequency counter that line 64 intends to build
(`collections.Counter(ranks)`): the multiplicity of each rank value. -/
def rankCounterOf (ranks : List ℕ) : ℕ → ℕ :=
  fun r => ranks.count r

namespace Doc2VecModeler

/-- One iteration of the loop at lines 79-89: infer a vector for each side
of the pair and compute `pair_cs = 1 - cosine(u, v)` and
`pair_ed = euclidean(u, v)` for the row. -/
def computeRow (m : GensimOracle) (epochs : ℕ) (sp : ScipySims) (row : PairRow) :
    CalcRow :=
  let inf_ref_vec := m.inferVector row.ref_pp_text epochs
  let inf_tate_vec := m.inferVector row.tate_pp_text epochs
  { toPairRow := row
    ref_vecs := inf_ref_vec
    tate_vecs := inf_tate_vec
    pair_cs := 1 - sp.cosineDist inf_ref_vec inf_tate_vec
    pair_ed := sp.euclDist inf_ref_vec inf_tate_vec }

/-- `calculate_pair_sims_array` (lines 70-129): builds the augmented copy
`calc_pairings_df` of the input pairings dataframe, splits it by the
`is_pair` flag (`== 1` for the true-pair group, `~(== 1)` i.e. `== 0` for
the false-pair group on a boolean column), computes the per-group summary
stats, and stores everything under train-keyed attributes when
`is_train` and under test-keyed attributes otherwise. Reads `self.model`
(AttributeError when the model was never fit). -/
def calculate_pair_sims_array (sp : ScipySims) (st : Doc2VecModeler)
    (pairings_df : List PairRow) (is_train : Bool := true) :
    Except PyError Doc2VecModeler :=
  match st.model with
  | none => Except.error (PyError.attributeError "model")
  | some m =>
    let calc_pairings_df := pairings_df.map (computeRow m st.epochs sp)
    let is_true_pair := fun r : CalcRow => r.is_pair == true
    let true_cs := (calc_pairings_df.filter is_true_pair).map (fun r => r.pair_cs)
    let false_cs := (calc_pairings_df.filter (fun r => !(is_true_pair r))).map
      (fun r => r.pair_cs)
    let true_ed := (calc_pairings_df.filter is_true_pair).map (fun r => r.pair_ed)
    let false_ed := (calc_pairings_df.filter (fun r => !(is_true_pair r))).map
      (fun r => r.pair_ed)
    let pair_cs_stats := groupStats true_cs false_cs
    let pair_ed_stats := groupStats true_ed false_ed
    let eq0 := fun r : CalcRow => r.is_pair == false
    if is_train then
      Except.ok { st with
        tr_pairings_df := some calc_pairings_df
        train_true_cs := some ((calc_pairings_df.filter is_true_pair).map
          (fun r => r.pair_cs))
        train_false_cs := some ((calc_pairings_df.filter eq0).map
          (fun r => r.pair_cs))
        train_true_ed := some ((calc_pairings_df.filter is_true_pair).map
          (fun r => r.pair_ed))
        train_false_ed := some ((calc_pairings_df.filter eq0).map
          (fun r => r.pair_ed))
        tr_cs_pairings_stats := some pair_cs_stats
        tr_ed_pairings_stats := some pair_ed_stats }
    else
      Except.ok { st with
        tst_pairings_df := some calc_pairings_df
        test_true_cs := some ((calc_pairings_df.filter is_true_pair).map
          (fun r => r.pair_cs))
        test_false_cs := some ((calc_pairings_df.filter eq0).map
          (fun r => r.pair_cs))
        test_true_ed := some ((calc_pairings_df.filter is_true_pair).map
          (fun r => r.pair_ed))
        test_false_ed := some ((calc_pairings_df.filter eq0).map
          (fun r => r.pair_ed))
        tst_cs_pairings_stats := some pair_cs_stats
        tst_ed_pairings_stats := some pair_ed_stats }

/-- `calc_tt_hypothesis_test` (lines 131-158): reads the stored pairings
dataframe for the requested split (AttributeError when
`calculate_pair_sims_array` never ran for it), splits the requested metric
column by `is_pair == 1` / `is_pair == 0`, runs `ttest_ind`, and stores the
statistic, the p-value and the flag `p < 0.01` under the attribute triple
selected by the two flags. -/
def calc_tt_hypothesis_test (ttest : TTest) (st : Doc2VecModeler)
    (for_train_pairings : Bool := true) (for_cs : Bool := true) :
    Except PyError Doc2VecModeler :=
  match (if for_train_pairings then st.tr_pairings_df else st.tst_pairings_df) with
  | none =>
    Except.error (PyError.attributeError
      (if for_train_pairings then "tr_pairings_df" else "tst_pairings_df"))
  | some pairs_df =>
    let sim_col : CalcRow → ℚ :=
      if for_cs then (fun r => r.pair_cs) else (fun r => r.pair_ed)
    let true_sims := (pairs_df.filter (fun r => r.is_pair == true)).map sim_col
    let false_sims := (pairs_df.filter (fun r => r.is_pair == false)).map sim_col
    let res := ttest true_sims false_sims
    let stat := res.1
    let p := res.2
    if for_train_pairings then
      if for_cs then
        Except.ok { st with
          cs_train_stat := some stat
          cs_train_p_val := some p
          cs_is_train_significant := some (decide (p < 1/100)) }
      else
        Except.ok { st with
          ed_train_stat := some stat
          ed_train_p_val := some p
          ed_is_train_significant := some (decide (p < 1/100)) }
    else
      if for_cs then
        Except.ok { st with
          cs_test_stat := some stat
          cs_test_p_val := some p
          cs_is_test_significant := some (decide (p < 1/100)) }
      else
        Except.ok { st with
          ed_test_stat := some stat
          ed_test_p_val := some p
          ed_is_test_significant := some (decide (p < 1/100)) }

/-- `plot_sim_distribution` (lines 160-187): reads the stored per-group
series for the selected split/metric (AttributeError when they were never
stored); the rendering itself is external I/O with no computed state. -/
def plot_sim_distribution (st : Doc2VecModeler)
    (use_train : Bool := true) (use_cs : Bool := true) :
    Except PyError Unit :=
  match (if use_train then
          (if use_cs then st.train_true_cs else st.train_true_ed)
        else
          (if use_cs then st.test_true_cs else st.test_true_ed)),
        (if use_train then
          (if use_cs then st.train_false_cs else st.train_false_ed)
        else
          (if use_cs then st.test_false_cs else st.test_false_ed)) with
  | some _, some _ => Except.ok ()
  | none, _ => Except.error (PyError.attributeError "pair series")
  | _, none => Except.error (PyError.attributeError "pair series")

/-- The stored pairings dataframe the `for_train_pairings` flag selects. -/
def pairingsOf (st : Doc2VecModeler) (for_train_pairings : Bool) :
    Option (List CalcRow) :=
  if for_train_pairings then st.tr_pairings_df else st.tst_pairings_df

/-- The stored t-statistic attribute the two flags of
`calc_tt_hypothesis_test` select. -/
def statOf (st : Doc2VecModeler) (for_train_pairings for_cs : Bool) : Option ℚ :=
  if for_train_pairings then
    (if for_cs then st.cs_train_stat else st.ed_train_stat)
  else
    (if for_cs then st.cs_test_stat else st.ed_test_stat)

/-- The stored p-value attribute the two flags select. -/
def pValOf (st : Doc2VecModeler) (for_train_pairings for_cs : Bool) : Option ℚ :=
  if for_train_pairings then
    (if for_cs then st.cs_train_p_val else st.ed_train_p_val)
  else
    (if for_cs then st.cs_test_p_val else st.ed_test_p_val)

/-- The stored significance-flag attribute the two flags select. -/
def significantOf (st : Doc2VecModeler) (for_train_pairings for_cs : Bool) :
    Option Bool :=
  if for_train_pairings then
    (if for_cs then st.cs_is_train_significant else st.ed_is_train_significant)
  else
    (if for_cs then st.cs_is_test_significant else st.ed_is_test_significant)

end Doc2VecModeler

/-- Insertion-ordered Python dict with `String` keys: assignment to an
existing key updates it in place, a new key is appended at the end. -/
def dictSet {β : Type} (d : List (String × β)) (k : String) (v : β) :
    List (String × β) :=
  if d.any (fun p => p.1 == k) then
    d.map (fun p => if p.1 == k then (k, v) else p)
  else
    d ++ [(k, v)]

/-- Dict lookup (`d[k]` / `d.get(k)`): `none` when the key is absent. -/
def dictGet {β : Type} (d : List (String × β)) (k : String) : Option β :=
  (d.find? (fun p => p.1 == k)).map (fun p => p.2)

/-- A value stored in an evaluation-statistics record: the integer `0`
placeholders of the template, float-valued statistics (`none` = NaN),
boolean significance flags, or the model object itself. -/
inductive EvalVal where
  | intVal (n : ℤ)
  | numVal (q : Option ℚ)
  | boolVal (b : Bool)
  | modelVal (m : Doc2VecModeler)

/-- One per-model statistics record: a Python dict from stat name to value. -/
def EvalRecord : Type := List (String × EvalVal)

/-- The template dict built in `DocVecModelEvaluator.__init__` (line 194):
every field starts at the placeholder `0`. -/
def evalAreasTemplate : EvalRecord :=
  [("model", EvalVal.intVal 0),
   ("self_recog_rate", EvalVal.intVal 0),
   ("cs_train_p_val", EvalVal.intVal 0),
   ("cs_test_p_val", EvalVal.intVal 0),
   ("ed_train_p_val", EvalVal.intVal 0),
   ("ed_test_p_val", EvalVal.intVal 0),
   ("cs_is_train_significant", EvalVal.intVal 0),
   ("cs_is_test_significant", EvalVal.intVal 0),
   ("ed_is_train_significant", EvalVal.intVal 0),
   ("ed_is_test_significant", EvalVal.intVal 0),
   ("tr_cs_pairings_stats", EvalVal.intVal 0),
   ("tst_cs_pairings_stats", EvalVal.intVal 0),
   ("tr_ed_pairings_stats", EvalVal.intVal 0),
   ("tst_ed_pairings_stats", EvalVal.intVal 0)]

/-- The state of a `DocVecModelEvaluator` instance (lines 189-240). -/
structure DocVecModelEvaluator where
  eval_areas_dict : EvalRecord
  eval_dict : List (String × EvalRecord)
  eval_cols : Option (List String)

namespace DocVecModelEvaluator

/-- `DocVecModelEvaluator.__init__` (lines 193-195): the template dict and
an empty aggregate mapping; `eval_cols` is not assigned yet. -/
def init : DocVecModelEvaluator :=
  { eval_areas_dict := evalAreasTemplate
    eval_dict := []
    eval_cols := none }

/-- `update_stats` (lines 213-234): copies the template, fills the `model`
slot and the nine statistic fields that share a template key, then stores
the eight per-group means under the keys `tr_cs_true_mean`, ...,
`tst_ed_false_mean` (keys the template does not contain, so they are
appended), and inserts the record into `eval_dict` under the model's name,
overwriting any prior entry; finally `eval_cols` is set to the record's
keys. Each attribute read raises `AttributeError` when the corresponding
pipeline stage never stored it. -/
def update_stats (ev : DocVecModelEvaluator) (model : Doc2VecModeler) :
    Except PyError DocVecModelEvaluator := do
  let s0 := ev.eval_areas_dict
  let s1 := dictSet s0 "model" (EvalVal.modelVal model)
  let rate ← getattrE model.self_recog_rate "self_recog_rate"
  let s2 := dictSet s1 "self_recog_rate" (EvalVal.numVal (some rate))
  let p1 ← getattrE model.cs_train_p_val "cs_train_p_val"
  let s3 := dictSet s2 "cs_train_p_val" (EvalVal.numVal (some p1))
  let p2 ← getattrE model.cs_test_p_val "cs_test_p_val"
  let s4 := dictSet s3 "cs_test_p_val" (EvalVal.numVal (some p2))
  let p3 ← getattrE model.ed_train_p_val "ed_train_p_val"
  let s5 := dictSet s4 "ed_train_p_val" (EvalVal.numVal (some p3))
  let p4 ← getattrE model.ed_test_p_val "ed_test_p_val"
  let s6 := dictSet s5 "ed_test_p_val" (EvalVal.numVal (some p4))
  let b1 ← getattrE model.cs_is_train_significant "cs_is_train_significant"
  let s7 := dictSet s6 "cs_is_train_significant" (EvalVal.boolVal b1)
  let b2 ← getattrE model.cs_is_test_significant "cs_is_test_significant"
  let s8 := dictSet s7 "cs_is_test_significant" (EvalVal.boolVal b2)
  let b3 ← getattrE model.ed_is_train_significant "ed_is_train_significant"
  let s9 := dictSet s8 "ed_is_train_significant" (EvalVal.boolVal b3)
  let b4 ← getattrE model.ed_is_test_significant "ed_is_test_significant"
  let s10 := dictSet s9 "ed_is_test_significant" (EvalVal.boolVal b4)
  let trcs ← getattrE model.tr_cs_pairings_stats "tr_cs_pairings_stats"
  let s11 := dictSet s10 "tr_cs_true_mean" (EvalVal.numVal trcs.avg_tru)
  let s12 := dictSet s11 "tr_cs_false_mean" (EvalVal.numVal trcs.avg_false)
  let tstcs ← getattrE model.tst_cs_pairings_stats "tst_cs_pairings_stats"
  let s13 := dictSet s12 "tst_cs_true_mean" (EvalVal.numVal tstcs.avg_tru)
  let s14 := dictSet s13 "tst_cs_false_mean" (EvalVal.numVal tstcs.avg_false)
  let tred ← getattrE model.tr_ed_pairings_stats "tr_ed_pairings_stats"
  let s15 := dictSet s14 "tr_ed_true_mean" (EvalVal.numVal tred.avg_tru)
  let s16 := dictSet s15 "tr_ed_false_mean" (EvalVal.numVal tred.avg_false)
  let tsted ← getattrE model.tst_ed_pairings_stats "tst_ed_pairings_stats"
  let s17 := dictSet s16 "tst_ed_true_mean" (EvalVal.numVal tsted.avg_tru)
  let s18 := dictSet s17 "tst_ed_false_mean" (EvalVal.numVal tsted.avg_false)
  Except.ok { ev with
    eval_dict := dictSet ev.eval_dict model.model_name s18
    eval_cols := some (s18.map (fun p => p.1)) }

/-- `train_new_model` (lines 197-211): constructs a wrapper with
`vector_size` and the defaults `dm=1, min_count=2, epochs=100`, fits it,
and runs the pipeline. Line 201 reads the bare name `train_pairings_df`
(defined only as a local of `main`, never at module level), line 202
likewise `test_pairings_df`, and line 211 calls the bare name
`update_stats` (a method, not a module-level function) — each of those
resolutions raises `NameError`. Before any of them is reached,
`calc_self_recognition_ability` at line 200 raises `NameError` on
`collections`. -/
def train_new_model (trainer : Trainer) (sp : ScipySims) (ttest : TTest)
    (ev : DocVecModelEvaluator) (model_name : String)
    (train_corpus : List TaggedDoc) (train_corp_name : String)
    (vector_size : ℕ) : Except PyError DocVecModelEvaluator := do
  let model := Doc2VecModeler.init model_name train_corpus train_corp_name
    vector_size 1 2 100
  let model := model.fit_model trainer
  let model ← model.calc_self_recognition_ability
  let train_pairings_df ← moduleGlobal (List PairRow) "train_pairings_df"
  let model ← model.calculate_pair_sims_array sp train_pairings_df true
  let test_pairings_df ← moduleGlobal (List PairRow) "test_pairings_df"
  let model ← model.calculate_pair_sims_array sp test_pairings_df false
  let model ← model.calc_tt_hypothesis_test ttest true true
  let model ← model.calc_tt_hypothesis_test ttest false true
  let model ← model.calc_tt_hypothesis_test ttest true false
  let model ← model.calc_tt_hypothesis_test ttest false false
  let _ ← model.plot_sim_distribution true true
  let _ ← model.plot_sim_distribution false true
  let _ ← model.plot_sim_distribution true false
  let _ ← model.plot_sim_distribution false false
  let updater ← moduleGlobal (Doc2VecModeler → Except PyError Unit) "update_stats"
  let _ ← updater model
  Except.ok ev

end DocVecModelEvaluator

/-- Dot product of real vectors, the sum `∑ uᵢ vᵢ`. -/
def dotR {n : ℕ} (u v : Fin n → ℝ) : ℝ :=
  ∑ i, u i * v i

/-- The Euclidean norm `√(∑ uᵢ²)` used by scipy's distance routines. -/
noncomputable def norm2R {n : ℕ} (u : Fin n → ℝ) : ℝ :=
  Real.sqrt (∑ i, (u i) ^ 2)

/-- Exact real semantics of `scipy.spatial.distance.cosine`:
`1 - ⟨u, v⟩ / (‖u‖ ‖v‖)`. -/
noncomputable def scipyCosine {n : ℕ} (u v : Fin n → ℝ) : ℝ :=
  1 - dotR u v / (norm2R u * norm2R v)

/-- The per-pair value line 86 stores: `cs = 1 - cosine(u, v)`. -/
noncomputable def pairCosSim {n : ℕ} (u v : Fin n → ℝ) : ℝ :=
  1 - scipyCosine u v

/-- Exact real semantics of `scipy.spatial.distance.euclidean`:
`√(∑ (uᵢ - vᵢ)²)`, the value line 87 stores as `ed`. -/
noncomputable def scipyEuclidean {n : ℕ} (u v : Fin n → ℝ) : ℝ :=
  Real.sqrt (∑ i, (u i - v i) ^ 2)

/-- The metric column `calc_tt_hypothesis_test` selects (line 137). -/
def simColOf (for_cs : Bool) : CalcRow → ℚ :=
  if for_cs then (fun r => r.pair_cs) else (fun r => r.pair_ed)

/-- The true-pair sample handed to `ttest_ind` (line 138). -/
def ttTrue (pairs : List CalcRow) (for_cs : Bool) : List ℚ :=
  (pairs.filter (fun r => r.is_pair == true)).map (simColOf for_cs)

/-- The false-pair sample handed to `ttest_ind` (line 139). -/
def ttFalse (pairs : List CalcRow) (for_cs : Bool) : List ℚ :=
  (pairs.filter (fun r => r.is_pair == false)).map (simColOf for_cs)

/-- A concrete trained-model oracle over a one-document corpus, used to
exercise the pipeline on closed inputs. -/
def oracle0 : GensimOracle :=
  { inferVector := fun _ _ => [1]
    mostSimilar := fun _ _ => [(0, 1)]
    docCount := 1 }

/-- A concrete training oracle returning `oracle0`. -/
def trainer0 : Trainer := fun _ _ _ _ _ => oracle0

/-- A concrete trained-model oracle over a two-document corpus. -/
def oracle2 : GensimOracle :=
  { inferVector := fun _ _ => [1, 0]
    mostSimilar := fun _ _ => [(0, 1), (1, 1/2)]
    docCount := 2 }

/-- Concrete scipy similarity oracle. -/
def sp0 : ScipySims :=
  { cosineDist := fun _ _ => 1/2
    euclDist := fun _ _ => 3 }

/-- Concrete `ttest_ind` oracle returning statistic `2` and p-value
`1/200 < 0.01`. -/
def tt0 : TTest := fun _ _ => (2, 1/200)

/-- Concrete one-document corpus. -/
def corpus0 : List TaggedDoc := [⟨["hello"]⟩]

/-- Concrete two-document corpus. -/
def corpus2 : List TaggedDoc := [⟨["a"]⟩, ⟨["b"]⟩]

/-- A fitted wrapper over `corpus0`. -/
def stFit : Doc2VecModeler :=
  (Doc2VecModeler.init "m0" corpus0 "c0" 50).fit_model trainer0

/-- A fitted wrapper over `corpus2`. -/
def stFit2 : Doc2VecModeler :=
  (Doc2VecModeler.init "m2" corpus2 "c2" 100).fit_model (fun _ _ _ _ _ => oracle2)

/-- A concrete two-row pairings dataframe with one true and one false pair. -/
def df0 : List PairRow :=
  [{ ref_pp_text := ["x"], tate_pp_text := ["y"], is_pair := true },
   { ref_pp_text := ["z"], tate_pp_text := ["w"], is_pair := false }]

/-- The wrapper after a train-mode `calculate_pair_sims_array` pass on `df0`. -/
def stPair : Doc2VecModeler :=
  ((stFit.calculate_pair_sims_array sp0 df0 true).toOption).getD stFit

/-- The wrapper after one train/cosine `calc_tt_hypothesis_test` run. -/
def stTT : Doc2VecModeler :=
  ((stPair.calc_tt_hypothesis_test tt0 true true).toOption).getD stPair

/-- The wrapper after a second identical `calc_tt_hypothesis_test` run. -/
def stTT2 : Doc2VecModeler :=
  ((stTT.calc_tt_hypothesis_test tt0 true true).toOption).getD stTT

/-- A wrapper state whose full evaluation pipeline results are present,
for exercising `update_stats` on closed inputs. -/
def mFull : Doc2VecModeler :=
  { Doc2VecModeler.init "mf" corpus0 "cf" with
    self_recog_rate := some 1
    cs_train_p_val := some (1/200)
    cs_test_p_val := some (3/100)
    ed_train_p_val := some (1/500)
    ed_test_p_val := some (2/100)
    cs_is_train_significant := some true
    cs_is_test_significant := some false
    ed_is_train_significant := some true
    ed_is_test_significant := some false
    tr_cs_pairings_stats := some (groupStats [1] [0])
    tst_cs_pairings_stats := some (groupStats [1/2] [0])
    tr_ed_pairings_stats := some (groupStats [3] [4])
    tst_ed_pairings_stats := some (groupStats [5] [6]) }

/-- A freshly constructed evaluation registry. -/
def ev0 : DocVecModelEvaluator := DocVecModelEvaluator.init

/-- Concrete real vector for exercising the similarity bounds. -/
def u1 : Fin 1 → ℝ := fun _ => 1

/-- Helper: `calc_self_recognition_ability` can never return normally; it
raises on every path (missing `model` attribute, a `ValueError` from
`.index`, or — once the loop finishes — the `NameError` on the
never-imported `collections` at line 64). -/
theorem calc_self_always_raises (st : Doc2VecModeler) :
    ∃ e, st.calc_self_recognition_ability = Except.error e := by
  unfold Doc2VecModeler.calc_self_recognition_ability
  cases h : st.model with
  | none => exact ⟨PyError.attributeError "model", rfl⟩
  | some m =>
    cases h2 : Doc2VecModeler.selfRanks m st.train_corpus st.epochs with
    | error e => exact ⟨e, by simp [h2]⟩
    | ok r => exact ⟨PyError.nameError "collections", by simp [h2]⟩

/-- Helper: the total of the rank-frequency counter that line 64 intends
to build is the number of ranks recorded. -/
theorem rankCounterOf_total (ranks : List ℕ) :
    ∑ r ∈ ranks.toFinset, rankCounterOf ranks r = ranks.length := by
  simp [rankCounterOf]

/-- C1: refuted as stated — `train_new_model` never reaches the point of
recording statistics in the aggregate table. Its call to
`calc_self_recognition_ability` raises `NameError` on `collections`; were
that repaired, the bare names `train_pairings_df` (line 201) and
`update_stats` (line 211) are also undefined at module level. The
function always propagates an exception, so `eval_dict` never gains the
entry the claim describes. -/
theorem C1_train_new_model_always_raises (trainer : Trainer) (sp : ScipySims)
    (ttest : TTest) (ev : DocVecModelEvaluator) (model_name : String)
    (train_corpus : List TaggedDoc) (train_corp_name : String)
    (vector_size : ℕ) :
    ∃ e, ev.train_new_model trainer sp ttest model_name train_corpus
      train_corp_name vector_size = Except.error e := by
  obtain ⟨e, he⟩ := calc_self_always_raises
    ((Doc2VecModeler.init model_name train_corpus train_corp_name
      vector_size 1 2 100).fit_model trainer)
  refine ⟨e, ?_⟩
  simp only [DocVecModelEvaluator.train_new_model]
  rw [he]
  rfl

/-- C2: refuted as stated — `calc_self_recognition_ability` never
completes, because line 64 evaluates `collections.Counter` and the module
never imports `collections`. Even when the whole ranking loop succeeds
(hypotheses: the model is fit and every document finds its own tag), the
method raises `NameError` before `rank_counter` is assigned, so there is
no stored counter whose counts could sum to N. -/
theorem C2_rank_counter_never_stored (st : Doc2VecModeler) (m : GensimOracle)
    (ranks : List ℕ) (hm : st.model = some m)
    (hr : Doc2VecModeler.selfRanks m st.train_corpus st.epochs = Except.ok ranks) :
    st.calc_self_recognition_ability = Except.error (PyError.nameError "collections") := by
  simp [Doc2VecModeler.calc_self_recognition_ability, hm, hr]

/-- Witness for C2 at a concrete fitted one-document wrapper. -/
theorem C2_rank_counter_never_stored_witness :
    stFit.model = some oracle0 ∧
    Doc2VecModeler.selfRanks oracle0 stFit.train_corpus stFit.epochs = Except.ok [0] ∧
    stFit.calc_self_recognition_ability = Except.error (PyError.nameError "collections") :=
  ⟨rfl, rfl, C2_rank_counter_never_stored stFit oracle0 [0] rfl rfl⟩

/-- C3: refuted as stated — on the concrete fitted two-document wrapper
`stFit2`, `calc_self_recognition_ability` raises `NameError` on
`collections` (line 64), so `self_recog_rate` and `greater_than_95` are
never assigned; the rate/flag postcondition the claim states is
unreachable. -/
theorem C3_rate_never_stored :
    stFit2.calc_self_recognition_ability = Except.error (PyError.nameError "collections") := by
  rfl

/-- Helper: full characterization of a successful `calc_tt_hypothesis_test`
run — the selected split's dataframe had to be present, both stored
dataframes are untouched, and the selected stat/p-value/flag triple holds
`ttest_ind`'s result on the `is_pair`-split metric column, with the flag
`p < 0.01`. -/
theorem calc_tt_spec (ttest : TTest) (st st' : Doc2VecModeler) (ft fc : Bool)
    (h : st.calc_tt_hypothesis_test ttest ft fc = Except.ok st') :
    ∃ pairs, (if ft then st.tr_pairings_df else st.tst_pairings_df) = some pairs ∧
      st'.tr_pairings_df = st.tr_pairings_df ∧
      st'.tst_pairings_df = st.tst_pairings_df ∧
      st'.statOf ft fc = some (ttest (ttTrue pairs fc) (ttFalse pairs fc)).1 ∧
      st'.pValOf ft fc = some (ttest (ttTrue pairs fc) (ttFalse pairs fc)).2 ∧
      st'.significantOf ft fc =
        some (decide ((ttest (ttTrue pairs fc) (ttFalse pairs fc)).2 < 1/100)) := by
  unfold Doc2VecModeler.calc_tt_hypothesis_test at h
  cases hdf : (if ft then st.tr_pairings_df else st.tst_pairings_df) with
  | none => rw [hdf] at h; cases h
  | some pairs =>
    rw [hdf] at h
    cases ft <;> cases fc <;>
      simp only [if_true, if_false] at h <;>
      (injection h with h; subst h) <;>
      exact ⟨pairs, rfl, rfl, rfl, rfl, rfl, rfl⟩

/-- C4: for every metric/split flag pair, after a successful
`calc_tt_hypothesis_test` run the stored significance boolean for that
metric/split is `true` exactly when the stored p-value is `< 0.01`. -/
theorem C4_significance_flag_iff (ttest : TTest) (st st' : Doc2VecModeler)
    (ft fc : Bool)
    (h : st.calc_tt_hypothesis_test ttest ft fc = Except.ok st') :
    ∃ b p, st'.significantOf ft fc = some b ∧ st'.pValOf ft fc = some p ∧
      (b = true ↔ p < 1/100) := by
  obtain ⟨pairs, -, -, -, -, hp, hsig⟩ := calc_tt_spec ttest st st' ft fc h
  exact ⟨_, _, hsig, hp, by simp⟩

/-- Witness for C4: a concrete run with p-value `1/200 < 0.01`. -/
theorem C4_significance_flag_iff_witness :
    stPair.calc_tt_hypothesis_test tt0 true true = Except.ok stTT ∧
    (∃ b p, stTT.significantOf true true = some b ∧
      stTT.pValOf true true = some p ∧ (b = true ↔ p < 1/100)) :=
  ⟨rfl, C4_significance_flag_iff tt0 stPair stTT true true rfl⟩

/-- C5: invoking `calc_tt_hypothesis_test` for a split whose pairings
dataframe was never stored (i.e. `calculate_pair_sims_array` has not run
for that split) raises `AttributeError` on the missing attribute, for
every wrapper state and either metric flag. -/
theorem C5_ttest_requires_pairings (ttest : TTest) (st : Doc2VecModeler)
    (ft fc : Bool) (h : st.pairingsOf ft = none) :
    st.calc_tt_hypothesis_test ttest ft fc =
      Except.error (PyError.attributeError
        (if ft then "tr_pairings_df" else "tst_pairings_df")) := by
  unfold Doc2VecModeler.pairingsOf at h
  unfold Doc2VecModeler.calc_tt_hypothesis_test
  rw [h]

/-- Witness for C5: a freshly constructed wrapper has no train pairings. -/
theorem C5_ttest_requires_pairings_witness :
    (Doc2VecModeler.init "w5" [] "c").pairingsOf true = none ∧
    (Doc2VecModeler.init "w5" [] "c").calc_tt_hypothesis_test tt0 true true =
      Except.error (PyError.attributeError "tr_pairings_df") :=
  ⟨rfl, C5_ttest_requires_pairings tt0 (Doc2VecModeler.init "w5" [] "c") true true rfl⟩

/-- C7: the hypothesis test is deterministic — two successive runs with
the same flags on the unchanged stored distributions store the same
t-statistic and p-value. -/
theorem C7_ttest_deterministic (ttest : TTest) (st st1 st2 : Doc2VecModeler)
    (ft fc : Bool)
    (h1 : st.calc_tt_hypothesis_test ttest ft fc = Except.ok st1)
    (h2 : st1.calc_tt_hypothesis_test ttest ft fc = Except.ok st2) :
    st2.statOf ft fc = st1.statOf ft fc ∧
      st2.pValOf ft fc = st1.pValOf ft fc := by
  obtain ⟨pairs, hdf, htr, hts, hstat1, hp1, -⟩ := calc_tt_spec ttest st st1 ft fc h1
  obtain ⟨pairs2, hdf2, -, -, hstat2, hp2, -⟩ := calc_tt_spec ttest st1 st2 ft fc h2
  have hsame : (if ft then st.tr_pairings_df else st.tst_pairings_df) = some pairs2 := by
    cases ft <;> simp_all
  rw [hdf] at hsame
  injection hsame with hsame
  subst hsame
  rw [hstat1, hstat2, hp1, hp2]
  exact ⟨rfl, rfl⟩

/-- Witness for C7: two successive concrete runs agree. -/
theorem C7_ttest_deterministic_witness :
    stPair.calc_tt_hypothesis_test tt0 true true = Except.ok stTT ∧
    stTT.calc_tt_hypothesis_test tt0 true true = Except.ok stTT2 ∧
    (stTT2.statOf true true = stTT.statOf true true ∧
      stTT2.pValOf true true = stTT.pValOf true true) :=
  ⟨rfl, rfl, C7_ttest_deterministic tt0 stPair stTT stTT2 true true rfl rfl⟩

/-- Helper: on any augmented dataframe, the `is_pair == 1` group and its
complement (stats mask `~is_true_pair`) are disjoint and partition the
rows, and likewise for the `is_pair == 1` / `is_pair == 0` series split. -/
theorem pairGroupsPartition (cdf : List CalcRow) :
    (∀ r, r ∈ cdf.filter (fun r => r.is_pair == true) →
      r ∈ cdf.filter (fun r => !(r.is_pair == true)) → False) ∧
    (cdf.filter (fun r => r.is_pair == true)).length +
      (cdf.filter (fun r => !(r.is_pair == true))).length = cdf.length ∧
    (∀ r, r ∈ cdf.filter (fun r => r.is_pair == true) →
      r ∈ cdf.filter (fun r => r.is_pair == false) → False) ∧
    (cdf.filter (fun r => r.is_pair == true)).length +
      (cdf.filter (fun r => r.is_pair == false)).length = cdf.length := by
  have hfun : ∀ r : CalcRow, (r.is_pair == false) = !(r.is_pair == true) :=
    fun r => by cases r.is_pair <;> rfl
  have hcongr : cdf.filter (fun r => r.is_pair == false) =
      cdf.filter (fun r => !(r.is_pair == true)) :=
    List.filter_congr (fun a _ => hfun a)
  refine ⟨?_, (List.length_eq_length_filter_add _).symm, ?_, ?_⟩
  · intro r h1 h2
    have ha := List.of_mem_filter h1
    have hb := List.of_mem_filter h2
    simp_all
  · intro r h1 h2
    have ha := List.of_mem_filter h1
    have hb := List.of_mem_filter h2
    simp_all
  · rw [hcongr]
    exact (List.length_eq_length_filter_add _).symm

/-- C6: after any successful `calculate_pair_sims_array` pass, the stored
augmented dataframe has one row per input pairing, the true-pair and
false-pair groups (both the stats masks `is_true_pair` / `~is_true_pair`
and the stored `== 1` / `== 0` series) are disjoint, and their sizes sum
to the pairing set's size. -/
theorem C6_pair_groups_partition (sp : ScipySims) (st : Doc2VecModeler)
    (df : List PairRow) (mode : Bool) (st' : Doc2VecModeler)
    (h : st.calculate_pair_sims_array sp df mode = Except.ok st') :
    ∃ cdf, (if mode then st'.tr_pairings_df else st'.tst_pairings_df) = some cdf ∧
      cdf.length = df.length ∧
      (if mode then st'.train_true_cs else st'.test_true_cs) =
        some ((cdf.filter (fun r => r.is_pair == true)).map (fun r => r.pair_cs)) ∧
      (if mode then st'.train_false_cs else st'.test_false_cs) =
        some ((cdf.filter (fun r => r.is_pair == false)).map (fun r => r.pair_cs)) ∧
      (∀ r, r ∈ cdf.filter (fun r => r.is_pair == true) →
        r ∈ cdf.filter (fun r => !(r.is_pair == true)) → False) ∧
      (cdf.filter (fun r => r.is_pair == true)).length +
        (cdf.filter (fun r => !(r.is_pair == true))).length = cdf.length ∧
      (∀ r, r ∈ cdf.filter (fun r => r.is_pair == true) →
        r ∈ cdf.filter (fun r => r.is_pair == false) → False) ∧
      (cdf.filter (fun r => r.is_pair == true)).length +
        (cdf.filter (fun r => r.is_pair == false)).length = cdf.length := by
  unfold Doc2VecModeler.calculate_pair_sims_array at h
  cases hm : st.model with
  | none => rw [hm] at h; cases h
  | some m =>
    rw [hm] at h
    cases mode <;> simp only [if_true, if_false] at h <;>
      (injection h with h; subst h) <;>
      exact ⟨_, rfl, by simp, rfl, rfl,
        (pairGroupsPartition _).1, (pairGroupsPartition _).2.1,
        (pairGroupsPartition _).2.2.1, (pairGroupsPartition _).2.2.2⟩

/-- Witness for C6: the concrete train-mode pass on the two-row `df0`. -/
theorem C6_pair_groups_partition_witness :
    stFit.calculate_pair_sims_array sp0 df0 true = Except.ok stPair ∧
    (∃ cdf, (if true then stPair.tr_pairings_df else stPair.tst_pairings_df) = some cdf ∧
      cdf.length = df0.length ∧
      (if true then stPair.train_true_cs else stPair.test_true_cs) =
        some ((cdf.filter (fun r => r.is_pair == true)).map (fun r => r.pair_cs)) ∧
      (if true then stPair.train_false_cs else stPair.test_false_cs) =
        some ((cdf.filter (fun r => r.is_pair == false)).map (fun r => r.pair_cs)) ∧
      (∀ r, r ∈ cdf.filter (fun r => r.is_pair == true) →
        r ∈ cdf.filter (fun r => !(r.is_pair == true)) → False) ∧
      (cdf.filter (fun r => r.is_pair == true)).length +
        (cdf.filter (fun r => !(r.is_pair == true))).length = cdf.length ∧
      (∀ r, r ∈ cdf.filter (fun r => r.is_pair == true) →
        r ∈ cdf.filter (fun r => r.is_pair == false) → False) ∧
      (cdf.filter (fun r => r.is_pair == true)).length +
        (cdf.filter (fun r => r.is_pair == false)).length = cdf.length) :=
  ⟨rfl, C6_pair_groups_partition sp0 stFit df0 true stPair rfl⟩

/-- C9: a train-mode `calculate_pair_sims_array` pass leaves every
test-keyed result attribute unchanged, and a test-mode pass leaves every
train-keyed result attribute unchanged (the input dataframe is only
copied, never mutated); populating both splits therefore takes two
passes. -/
theorem C9_mode_frame (sp : ScipySims) (st : Doc2VecModeler)
    (df : List PairRow) (mode : Bool) (st' : Doc2VecModeler)
    (h : st.calculate_pair_sims_array sp df mode = Except.ok st') :
    (mode = true →
      st'.tst_pairings_df = st.tst_pairings_df ∧
      st'.test_true_cs = st.test_true_cs ∧
      st'.test_false_cs = st.test_false_cs ∧
      st'.test_true_ed = st.test_true_ed ∧
      st'.test_false_ed = st.test_false_ed ∧
      st'.tst_cs_pairings_stats = st.tst_cs_pairings_stats ∧
      st'.tst_ed_pairings_stats = st.tst_ed_pairings_stats) ∧
    (mode = false →
      st'.tr_pairings_df = st.tr_pairings_df ∧
      st'.train_true_cs = st.train_true_cs ∧
      st'.train_false_cs = st.train_false_cs ∧
      st'.train_true_ed = st.train_true_ed ∧
      st'.train_false_ed = st.train_false_ed ∧
      st'.tr_cs_pairings_stats = st.tr_cs_pairings_stats ∧
      st'.tr_ed_pairings_stats = st.tr_ed_pairings_stats) := by
  unfold Doc2VecModeler.calculate_pair_sims_array at h
  cases hm : st.model with
  | none => rw [hm] at h; cases h
  | some m =>
    rw [hm] at h
    cases mode <;> simp only [if_true, if_false] at h <;>
      (injection h with h; subst h)
    · exact ⟨fun hc => absurd hc (by decide),
        fun _ => ⟨rfl, rfl, rfl, rfl, rfl, rfl, rfl⟩⟩
    · exact ⟨fun _ => ⟨rfl, rfl, rfl, rfl, rfl, rfl, rfl⟩,
        fun hc => absurd hc (by decide)⟩

/-- Witness for C9: the concrete train-mode pass touches no test field. -/
theorem C9_mode_frame_witness :
    stFit.calculate_pair_sims_array sp0 df0 true = Except.ok stPair ∧
    (stPair.tst_pairings_df = stFit.tst_pairings_df ∧
      stPair.test_true_cs = stFit.test_true_cs ∧
      stPair.test_false_cs = stFit.test_false_cs ∧
      stPair.test_true_ed = stFit.test_true_ed ∧
      stPair.test_false_ed = stFit.test_false_ed ∧
      stPair.tst_cs_pairings_stats = stFit.tst_cs_pairings_stats ∧
      stPair.tst_ed_pairings_stats = stFit.tst_ed_pairings_stats) :=
  ⟨rfl, (C9_mode_frame sp0 stFit df0 true stPair rfl).1 rfl⟩

/-- C8: under exact real arithmetic, the per-pair value `1 - cosine(u, v)`
computed at line 86 lies in `[-1, 1]` whenever both inferred vectors have
nonzero norm (scipy's `cosine` divides by the norms, so zero vectors give
NaN), and the per-pair `euclidean(u, v)` of line 87 is nonnegative. -/
theorem C8_similarity_bounds {n : ℕ} (u v : Fin n → ℝ) :
    0 ≤ scipyEuclidean u v ∧
    (norm2R u ≠ 0 → norm2R v ≠ 0 →
      -1 ≤ pairCosSim u v ∧ pairCosSim u v ≤ 1) := by
  constructor
  · exact Real.sqrt_nonneg _
  · intro hu hv
    have hu0 : 0 ≤ norm2R u := Real.sqrt_nonneg _
    have hv0 : 0 ≤ norm2R v := Real.sqrt_nonneg _
    have hup : 0 < norm2R u := lt_of_le_of_ne hu0 (Ne.symm hu)
    have hvp : 0 < norm2R v := lt_of_le_of_ne hv0 (Ne.symm hv)
    have hP : 0 < norm2R u * norm2R v := mul_pos hup hvp
    have hCS : (dotR u v) ^ 2 ≤ (∑ i, (u i) ^ 2) * (∑ i, (v i) ^ 2) := by
      unfold dotR
      exact Finset.sum_mul_sq_le_sq_mul_sq Finset.univ u v
    have habs : |dotR u v| ≤ norm2R u * norm2R v := by
      have h1 : |dotR u v| = Real.sqrt ((dotR u v) ^ 2) :=
        (Real.sqrt_sq_eq_abs _).symm
      have h2 : Real.sqrt ((dotR u v) ^ 2) ≤
          Real.sqrt ((∑ i, (u i) ^ 2) * (∑ i, (v i) ^ 2)) :=
        Real.sqrt_le_sqrt hCS
      have h3 : Real.sqrt ((∑ i, (u i) ^ 2) * (∑ i, (v i) ^ 2)) =
          norm2R u * norm2R v := by
        rw [Real.sqrt_mul (Finset.sum_nonneg (fun i _ => sq_nonneg (u i)))]
        rfl
      rw [h1, ← h3]
      exact h2
    have hfrac : pairCosSim u v = dotR u v / (norm2R u * norm2R v) := by
      unfold pairCosSim scipyCosine
      ring
    rw [hfrac]
    obtain ⟨hlo, hhi⟩ := abs_le.mp habs
    constructor
    · rw [le_div_iff₀ hP]
      linarith
    · rw [div_le_one hP]
      exact hhi

/-- Witness for C8 at the concrete unit vector `u1`. -/
theorem C8_similarity_bounds_witness :
    0 ≤ scipyEuclidean u1 u1 ∧
    (-1 ≤ pairCosSim u1 u1 ∧ pairCosSim u1 u1 ≤ 1) := by
  have hn : norm2R u1 ≠ 0 := by
    have h1 : norm2R u1 = 1 := by
      simp [norm2R, u1]
    rw [h1]
    exact one_ne_zero
  exact ⟨(C8_similarity_bounds u1 u1).1, (C8_similarity_bounds u1 u1).2 hn hn⟩

/-- Helper: looking up a key in the mapped-update branch of `dictSet`. -/
theorem find?_map_dictSet {β : Type} (k : String) (v : β)
    (d : List (String × β)) :
    List.find? (fun p => p.1 == k)
        (d.map (fun p => if p.1 == k then (k, v) else p)) =
      (if d.any (fun p => p.1 == k) then some (k, v) else none) := by
  induction d with
  | nil => rfl
  | cons a d ih =>
    by_cases ha : (a.1 == k) = true
    · rw [List.map_cons, if_pos ha]
      simp [List.find?_cons, List.any_cons, ha]
    · have ha2 : (a.1 == k) = false := by
        cases hx : (a.1 == k)
        · rfl
        · exact absurd hx ha
      rw [List.map_cons, if_neg ha]
      simp only [List.find?_cons, List.any_cons, ha2, Bool.false_or]
      exact ih

/-- Helper: looking up a freshly appended key in `dictSet`. -/
theorem find?_append_new {β : Type} (k : String) (v : β)
    (d : List (String × β)) (h : d.any (fun p => p.1 == k) = false) :
    List.find? (fun p => p.1 == k) (d ++ [(k, v)]) = some (k, v) := by
  induction d with
  | nil =>
    rw [List.nil_append]
    simp [List.find?_cons]
  | cons a d ih =>
    rw [List.any_cons] at h
    have h1 : (a.1 == k) = false := by
      cases hx : (a.1 == k)
      · rfl
      · rw [hx, Bool.true_or] at h
        exact absurd h (by simp)
    have h2 : d.any (fun p => p.1 == k) = false := by
      rw [h1, Bool.false_or] at h
      exact h
    rw [List.cons_append]
    simp only [List.find?_cons, h1]
    exact ih h2

/-- Helper: a dict lookup right after `dictSet` on the same key returns
the stored value (both in the overwrite and in the append branch). -/
theorem dictGet_dictSet_self {β : Type} (d : List (String × β)) (k : String)
    (v : β) : dictGet (dictSet d k v) k = some v := by
  unfold dictGet dictSet
  by_cases h : d.any (fun p => p.1 == k) = true
  · rw [if_pos h, find?_map_dictSet, if_pos h]
    rfl
  · rw [if_neg h, find?_append_new k v d (Bool.eq_false_iff.mpr h)]
    rfl

set_option maxHeartbeats 2000000 in
/-- C10: every record `update_stats` inserts keeps the four template
fields `tr_cs_pairings_stats`, `tst_cs_pairings_stats`,
`tr_ed_pairings_stats` and `tst_ed_pairings_stats` at their placeholder
`0` (no assignment ever targets them), while the per-group means are
stored under eight `*_mean` keys that the `__init__` template does not
contain (so they are appended to the record). -/
theorem C10_template_placeholders (ev : DocVecModelEvaluator)
    (m : Doc2VecModeler) (rate p1 p2 p3 p4 : ℚ) (b1 b2 b3 b4 : Bool)
    (s1 s2 s3 s4 : GroupStats)
    (hev : ev.eval_areas_dict = evalAreasTemplate)
    (h1 : m.self_recog_rate = some rate)
    (h2 : m.cs_train_p_val = some p1) (h3 : m.cs_test_p_val = some p2)
    (h4 : m.ed_train_p_val = some p3) (h5 : m.ed_test_p_val = some p4)
    (h6 : m.cs_is_train_significant = some b1)
    (h7 : m.cs_is_test_significant = some b2)
    (h8 : m.ed_is_train_significant = some b3)
    (h9 : m.ed_is_test_significant = some b4)
    (h10 : m.tr_cs_pairings_stats = some s1)
    (h11 : m.tst_cs_pairings_stats = some s2)
    (h12 : m.tr_ed_pairings_stats = some s3)
    (h13 : m.tst_ed_pairings_stats = some s4) :
    ∃ ev' rec, ev.update_stats m = Except.ok ev' ∧
      dictGet ev'.eval_dict m.model_name = some rec ∧
      dictGet rec "tr_cs_pairings_stats" = some (EvalVal.intVal 0) ∧
      dictGet rec "tst_cs_pairings_stats" = some (EvalVal.intVal 0) ∧
      dictGet rec "tr_ed_pairings_stats" = some (EvalVal.intVal 0) ∧
      dictGet rec "tst_ed_pairings_stats" = some (EvalVal.intVal 0) ∧
      dictGet evalAreasTemplate "tr_cs_true_mean" = none ∧
      dictGet evalAreasTemplate "tr_cs_false_mean" = none ∧
      dictGet evalAreasTemplate "tst_cs_true_mean" = none ∧
      dictGet evalAreasTemplate "tst_cs_false_mean" = none ∧
      dictGet evalAreasTemplate "tr_ed_true_mean" = none ∧
      dictGet evalAreasTemplate "tr_ed_false_mean" = none ∧
      dictGet evalAreasTemplate "tst_ed_true_mean" = none ∧
      dictGet evalAreasTemplate "tst_ed_false_mean" = none ∧
      dictGet rec "tr_cs_true_mean" = some (EvalVal.numVal s1.avg_tru) ∧
      dictGet rec "tr_cs_false_mean" = some (EvalVal.numVal s1.avg_false) ∧
      dictGet rec "tst_cs_true_mean" = some (EvalVal.numVal s2.avg_tru) ∧
      dictGet rec "tst_cs_false_mean" = some (EvalVal.numVal s2.avg_false) ∧
      dictGet rec "tr_ed_true_mean" = some (EvalVal.numVal s3.avg_tru) ∧
      dictGet rec "tr_ed_false_mean" = some (EvalVal.numVal s3.avg_false) ∧
      dictGet rec "tst_ed_true_mean" = some (EvalVal.numVal s4.avg_tru) ∧
      dictGet rec "tst_ed_false_mean" = some (EvalVal.numVal s4.avg_false) := by
  simp only [DocVecModelEvaluator.update_stats, getattrE, hev, h1, h2, h3, h4,
    h5, h6, h7, h8, h9, h10, h11, h12, h13]
  refine ⟨_, _, rfl, dictGet_dictSet_self _ _ _, ?_, ?_, ?_, ?_, ?_, ?_, ?_,
    ?_, ?_, ?_, ?_, ?_, ?_, ?_, ?_, ?_, ?_, ?_, ?_, ?_⟩ <;>
    simp [dictGet, dictSet, evalAreasTemplate]

/-- Witness for C10 at a fully evaluated concrete wrapper `mFull` and a
fresh registry `ev0`. -/
theorem C10_template_placeholders_witness :
    ev0.eval_areas_dict = evalAreasTemplate ∧
    mFull.self_recog_rate = some 1 ∧
    (∃ ev' rec, ev0.update_stats mFull = Except.ok ev' ∧
      dictGet ev'.eval_dict mFull.model_name = some rec ∧
      dictGet rec "tr_cs_pairings_stats" = some (EvalVal.intVal 0) ∧
      dictGet rec "tst_cs_pairings_stats" = some (EvalVal.intVal 0) ∧
      dictGet rec "tr_ed_pairings_stats" = some (EvalVal.intVal 0) ∧
      dictGet rec "tst_ed_pairings_stats" = some (EvalVal.intVal 0) ∧
      dictGet evalAreasTemplate "tr_cs_true_mean" = none ∧
      dictGet evalAreasTemplate "tr_cs_false_mean" = none ∧
      dictGet evalAreasTemplate "tst_cs_true_mean" = none ∧
      dictGet evalAreasTemplate "tst_cs_false_mean" = none ∧
      dictGet evalAreasTemplate "tr_ed_true_mean" = none ∧
      dictGet evalAreasTemplate "tr_ed_false_mean" = none ∧
      dictGet evalAreasTemplate "tst_ed_true_mean" = none ∧
      dictGet evalAreasTemplate "tst_ed_false_mean" = none ∧
      dictGet rec "tr_cs_true_mean" =
        some (EvalVal.numVal (groupStats [1] [0]).avg_tru) ∧
      dictGet rec "tr_cs_false_mean" =
        some (EvalVal.numVal (groupStats [1] [0]).avg_false) ∧
      dictGet rec "tst_cs_true_mean" =
        some (EvalVal.numVal (groupStats [1/2] [0]).avg_tru) ∧
      dictGet rec "tst_cs_false_mean" =
        some (EvalVal.numVal (groupStats [1/2] [0]).avg_false) ∧
      dictGet rec "tr_ed_true_mean" =
        some (EvalVal.numVal (groupStats [3] [4]).avg_tru) ∧
      dictGet rec "tr_ed_false_mean" =
        some (EvalVal.numVal (groupStats [3] [4]).avg_false) ∧
      dictGet rec "tst_ed_true_mean" =
        some (EvalVal.numVal (groupStats [5] [6]).avg_tru) ∧
      dictGet rec "tst_ed_false_mean" =
        some (EvalVal.numVal (groupStats [5] [6]).avg_false)) :=
  ⟨rfl, rfl, C10_template_placeholders ev0 mFull 1 (1/200) (3/100) (1/500)
    (2/100) true false true false (groupStats [1] [0]) (groupStats [1/2] [0])
    (groupStats [3] [4]) (groupStats [5] [6]) rfl rfl rfl rfl rfl rfl rfl rfl
    rfl rfl rfl rfl rfl rfl⟩
